import Mathlib

/-!
Shallow embedding of the enrollment/grading core of the
`django_0905_Student_Course_Management` application
(`courses/models.py`, `courses/views.py`, `courses/forms.py`,
`courses/signals.py`).

Identities, profiles, courses, enrollments and submissions are plain
records; the database is a list of rows; timestamps are natural numbers;
each view handler becomes a function from its inputs and the relevant
rows to an explicit outcome.
-/

namespace StudentCourses

/-- A user account of the identity store (Django auth user): the core only
reads `id`, `is_staff` and `is_superuser` (`models.py`, `views.py`). -/
structure User where
  id : Nat
  is_staff : Bool
  is_superuser : Bool
  deriving Repr, DecidableEq

/-- Row of `Course` (`models.py` lines 8-30): `instructor` is a nullable
foreign key to a user, embedded as the optional user id. -/
structure Course where
  id : Nat
  title : String
  instructor_id : Option Nat
  deriving Repr, DecidableEq

/-- Row of `StudentProfile` (`models.py` lines 34-40): one-to-one with a user,
plus a roll number. -/
structure StudentProfile where
  id : Nat
  user_id : Nat
  roll_number : String
  deriving Repr, DecidableEq

/-- Row of `Enrollment` (`models.py` lines 43-53). `enrolled_on` defaults to
`timezone.now`, `active` to `true`; `grade` is an optional summary grade. -/
structure Enrollment where
  student_id : Nat
  course_id : Nat
  enrolled_on : Nat
  active : Bool
  grade : Option String
  deriving Repr, DecidableEq

/-- Row of `AssignmentSubmission` (`models.py` lines 59-80) with its grading
fields: `graded` defaults to `false`, `grade`/`graded_by`/`graded_at` are
nullable, `feedback` is a (blank-allowed) text field. -/
structure Submission where
  id : Nat
  student_id : Nat
  course_id : Nat
  file : String
  submitted_at : Nat
  graded : Bool
  grade : Option String
  feedback : String
  graded_by : Option Nat
  graded_at : Option Nat
  deriving Repr, DecidableEq

/-- Error taxonomy of the request handlers (spec section 7): each variant is
the redirect-plus-message outcome the corresponding view produces. -/
inductive Err where
  | NotAuthorized
  | ProfileMissing
  | NotFound
  deriving Repr, DecidableEq

/-- The `request.user.studentprofile` lookup: the profile whose `user` foreign
key is the acting user (raises `StudentProfile.DoesNotExist`, i.e. `none`,
when absent). -/
def profileOf (profiles : List StudentProfile) (u : User) : Option StudentProfile :=
  profiles.find? (fun p => p.user_id == u.id)

/-- The lookup `get_object_or_404(Course, pk=pk)`. -/
def findCourse (courses : List Course) (pk : Nat) : Option Course :=
  courses.find? (fun c => c.id == pk)

-- ---------------- Grading (`views.py` lines 332-354) ----------------

/-- The authorization test of `grade_submission` (`views.py` line 337):
`request.user.is_superuser or request.user.is_staff or
submission.course.instructor_id == request.user.id`. -/
def canGrade (u : User) (c : Course) : Bool :=
  u.is_superuser || u.is_staff || c.instructor_id == some u.id

/-- The view `grade_submission` (`views.py` lines 332-354) on a POST request.
`c` is the submission's course (`submission.course`); `g` is
`request.POST.get('grade')` and `fb` is `request.POST.get('feedback', '')`,
so an omitted feedback becomes the empty string. An unauthorized caller is
redirected with an error message and nothing is saved; an authorized POST
overwrites the five grading fields and saves the row. -/
def grade_submission (u : User) (c : Course) (s : Submission)
    (g : Option String) (fb : Option String) (now : Nat) : Except Err Submission :=
  if !(u.is_superuser || u.is_staff || c.instructor_id == some u.id) then
    .error .NotAuthorized
  else
    .ok { s with grade := g, feedback := fb.getD "", graded := true,
                 graded_by := some u.id, graded_at := some now }

/-- The stored row after a grading attempt: on an error outcome the view
returned before any save, so the database still holds `s`. -/
def gradeStep (u : User) (c : Course) (s : Submission)
    (g : Option String) (fb : Option String) (now : Nat) : Submission :=
  match grade_submission u c s g fb now with
  | .ok r => r
  | .error _ => s

-- ---------------- Graded notification (`signals.py` lines 62-99) ----------------

/-- The guard of the `post_save` receiver `notify_student_on_graded`
(`signals.py` line 68): `if not created and instance.graded`. `created` is
true exactly on the row's initial insert. -/
def notifyTriggered (created : Bool) (s : Submission) : Bool :=
  !created && s.graded

-- ---------------- Enrollment toggle (`views.py` lines 149-182) ----------------

/-- Row selector of `Enrollment.objects.get_or_create(student=profile,
course=course, ...)`: the (student, course) key match. -/
def matchKey (e : Enrollment) (sid cid : Nat) : Bool :=
  e.student_id == sid && e.course_id == cid

/-- The `get` half of `get_or_create`: the enrollment row for
(student, course), when one exists. -/
def findEnrollment (ledger : List Enrollment) (sid cid : Nat) : Option Enrollment :=
  ledger.find? (fun e => matchKey e sid cid)

/-- Persisting `enrollment.save(...)`: the ledger with the (student, course)
row replaced by its mutated value. -/
def updateEnrollment (ledger : List Enrollment) (sid cid : Nat)
    (e' : Enrollment) : List Enrollment :=
  ledger.map (fun e => if matchKey e sid cid then e' else e)

/-- A freshly created enrollment row: `get_or_create` defaults give
`active = true`, and the model field default gives `enrolled_on = now`
(`models.py` lines 46-47); the summary `grade` stays null. -/
def newEnrollment (sid cid now : Nat) : Enrollment :=
  { student_id := sid, course_id := cid, enrolled_on := now,
    active := true, grade := none }

/-- The view `enroll_toggle` (`views.py` lines 149-182). Staff-without-superuser
callers are rejected first; then the caller's profile and the course are
resolved; a missing row is created active; an existing row has `active`
flipped, and only a flip to `true` also refreshes `enrolled_on`. -/
def enroll_toggle (u : User) (profiles : List StudentProfile)
    (courses : List Course) (ledger : List Enrollment)
    (pk : Nat) (now : Nat) : Except Err (List Enrollment) :=
  if u.is_staff && !u.is_superuser then
    .error .NotAuthorized
  else
    match profileOf profiles u with
    | none => .error .ProfileMissing
    | some profile =>
      match findCourse courses pk with
      | none => .error .NotFound
      | some course =>
        match findEnrollment ledger profile.id course.id with
        | none =>
          .ok (ledger ++ [newEnrollment profile.id course.id now])
        | some e =>
          let e' := if e.active then { e with active := false }
                    else { e with active := true, enrolled_on := now }
          .ok (updateEnrollment ledger profile.id course.id e')

/-- The ledger after an `enroll_toggle` attempt: an error outcome redirects
before any row is touched, so the ledger is unchanged. -/
def enrollToggleStep (u : User) (profiles : List StudentProfile)
    (courses : List Course) (ledger : List Enrollment)
    (pk : Nat) (now : Nat) : List Enrollment :=
  match enroll_toggle u profiles courses ledger pk now with
  | .ok L => L
  | .error _ => ledger

-- ---------------- Manual enrollment (`views.py` lines 298-315) ----------------

/-- Outcome of `enroll_manual` on a valid POST: either the success message
`"{profile} enrolled in {course}"` together with the resulting ledger, or
the error message `"No student found with roll number {roll}"`. -/
inductive ManualResult where
  | enrolled (ledger : List Enrollment)
  | noStudent
  deriving Repr, DecidableEq

/-- The view `enroll_manual` (`views.py` lines 298-315) on a valid POST: resolve the
profile by roll number, then `Enrollment.objects.get_or_create(student=profile,
course=course, defaults=\x7b'active': True\x7d)` — an existing row is returned
as-is, only a missing row is created — and report the student enrolled. -/
def enroll_manual (profiles : List StudentProfile) (roll : String)
    (course : Course) (ledger : List Enrollment) (now : Nat) : ManualResult :=
  match profiles.find? (fun p => p.roll_number == roll) with
  | none => .noStudent
  | some profile =>
    match findEnrollment ledger profile.id course.id with
    | some _ => .enrolled ledger
    | none => .enrolled (ledger ++ [newEnrollment profile.id course.id now])

/-- The ledger after an `enroll_manual` attempt. -/
def enrollManualStep (profiles : List StudentProfile) (roll : String)
    (course : Course) (ledger : List Enrollment) (now : Nat) : List Enrollment :=
  match enroll_manual profiles roll course ledger now with
  | .enrolled L => L
  | .noStudent => ledger

-- ---------------- Eligible courses (`forms.py` lines 62-80) ----------------

/-- The course ids of the caller's active enrollments:
`profile.enrollments.filter(active=True).values_list('course_id', flat=True)`. -/
def activeCourseIds (ledger : List Enrollment) (sid : Nat) : List Nat :=
  (ledger.filter (fun e => e.student_id == sid && e.active)).map (fun e => e.course_id)

/-- The course queryset `AssignmentSubmissionForm.__init__` offers
(`forms.py` lines 62-80): staff get the courses they instruct; otherwise the
caller's profile is resolved and, when present and when `course_ids` is
non-empty, the courses of their active enrollments; every other case keeps
the default `Course.objects.none()`. -/
def eligible_courses (u : User) (courses : List Course)
    (profiles : List StudentProfile) (ledger : List Enrollment) : List Course :=
  if u.is_staff then
    courses.filter (fun c => c.instructor_id == some u.id)
  else
    match profileOf profiles u with
    | none => []
    | some profile =>
      let course_ids := activeCourseIds ledger profile.id
      if course_ids.isEmpty then []
      else courses.filter (fun c => course_ids.contains c.id)

/-- Modelled from the spec (section 4.2), as the reference point of the
refinement claim about the eligible-course set: staff get the courses they
instruct; a non-staff identity with a profile gets the courses in which the
profile holds an active enrollment; a non-staff identity with no profile
gets the empty set. -/
def eligibleSpec (u : User) (courses : List Course)
    (profiles : List StudentProfile) (ledger : List Enrollment) : List Course :=
  if u.is_staff then
    courses.filter (fun c => c.instructor_id == some u.id)
  else
    match profileOf profiles u with
    | none => []
    | some profile =>
      courses.filter (fun c =>
        ledger.any (fun e => e.student_id == profile.id && e.active && e.course_id == c.id))

-- ---------------- Assignment upload (`views.py` lines 47-79) ----------------

/-- Outcome of `AssignmentCreateView.form_valid`: the saved submission on
success, or one of its three redirect-with-message outcomes. -/
inductive UploadResult where
  | success (s : Submission)
  | profileMissing
  | noCourse
  | notEligible
  deriving Repr, DecidableEq

/-- The handler `AssignmentCreateView.form_valid` (`views.py` lines 47-79): the caller
must have a `StudentProfile`; a missing course selection is rejected; a
caller who is neither staff nor superuser must have selected a course whose
id is among their active enrollments; then the submission is saved with the
caller's profile as owner, `submitted_at = now` and default grading fields. -/
def form_valid (u : User) (profiles : List StudentProfile)
    (ledger : List Enrollment) (selected : Option Course)
    (file : String) (now : Nat) (newId : Nat) : UploadResult :=
  match profileOf profiles u with
  | none => .profileMissing
  | some profile =>
    match selected with
    | none => .noCourse
    | some course =>
      if !(u.is_staff || u.is_superuser)
          && !((activeCourseIds ledger profile.id).contains course.id) then
        .notEligible
      else
        .success { id := newId, student_id := profile.id, course_id := course.id,
                   file := file, submitted_at := now, graded := false,
                   grade := none, feedback := "", graded_by := none,
                   graded_at := none }

-- ---------------- Ledger invariant ----------------

/-- At most one enrollment row per (student, course) pair: distinct rows of
the ledger differ in their key (`unique_together = ('student', 'course')`,
`models.py` line 52). -/
def uniquePairs (ledger : List Enrollment) : Prop :=
  ledger.Pairwise (fun a b => a.student_id ≠ b.student_id ∨ a.course_id ≠ b.course_id)

instance (ledger : List Enrollment) : Decidable (uniquePairs ledger) := by
  unfold uniquePairs; infer_instance

/-- How many enrollment rows a (student, course) pair has in the ledger. -/
def countEnrollments (ledger : List Enrollment) (sid cid : Nat) : Nat :=
  (ledger.filter (fun e => matchKey e sid cid)).length

-- ---------------- Sample rows used by the closed witness statements ----------------

/-- A plain student account. -/
def uStudent : User := { id := 1, is_staff := false, is_superuser := false }

/-- An instructor account (`is_staff = true`). -/
def uInstructor : User := { id := 2, is_staff := true, is_superuser := false }

/-- A superuser account. -/
def uSuper : User := { id := 3, is_staff := false, is_superuser := true }

/-- An unrelated plain account: not staff, not superuser, not the instructor
of `course1`, and with no student profile in `profiles1`. -/
def uOther : User := { id := 4, is_staff := false, is_superuser := false }

/-- A course taught by `uInstructor`. -/
def course1 : Course := { id := 10, title := "Algorithms", instructor_id := some 2 }

/-- A second course, with no instructor set. -/
def course2 : Course := { id := 11, title := "Finance", instructor_id := none }

/-- The student profile of `uStudent`. -/
def profile1 : StudentProfile := { id := 100, user_id := 1, roll_number := "R001" }

/-- The profile table holding only `profile1`. -/
def profiles1 : List StudentProfile := [profile1]

/-- The course table holding `course1` and `course2`. -/
def courses1 : List Course := [course1, course2]

/-- An active enrollment of `profile1` in `course1`. -/
def enr1 : Enrollment :=
  { student_id := 100, course_id := 10, enrolled_on := 20, active := true, grade := none }

/-- A dropped (inactive) enrollment of `profile1` in `course2`. -/
def enr2 : Enrollment :=
  { student_id := 100, course_id := 11, enrolled_on := 21, active := false, grade := none }

/-- An ungraded submission of `profile1` for `course1`. -/
def sub1 : Submission :=
  { id := 500, student_id := 100, course_id := 10, file := "hw.pdf", submitted_at := 50,
    graded := false, grade := none, feedback := "", graded_by := none, graded_at := none }

-- ---------------- Helper lemmas ----------------

/-- A found enrollment row matches the (student, course) key. -/
theorem findEnrollment_matches {ledger : List Enrollment} {sid cid : Nat}
    {e : Enrollment} (h : findEnrollment ledger sid cid = some e) :
    matchKey e sid cid = true := by
  have h' : ledger.find? (fun x => matchKey x sid cid) = some e := h
  exact @List.find?_some _ (fun x => matchKey x sid cid) e ledger h'

/-- Replacing the (student, course) row by a row with the same key makes the
new row the one found afterwards. -/
theorem findEnrollment_update {ledger : List Enrollment} {sid cid : Nat}
    {e e' : Enrollment} (hk : matchKey e' sid cid = true)
    (hf : findEnrollment ledger sid cid = some e) :
    findEnrollment (updateEnrollment ledger sid cid e') sid cid = some e' := by
  induction ledger with
  | nil => simp [findEnrollment] at hf
  | cons a L ih =>
    by_cases ha : matchKey a sid cid = true
    · simp [findEnrollment, updateEnrollment, List.find?, ha, hk]
    · have ha' : matchKey a sid cid = false := by
        simpa using ha
      have hf' : findEnrollment L sid cid = some e := by
        simpa [findEnrollment, List.find?, ha'] using hf
      simpa [findEnrollment, updateEnrollment, List.find?, ha'] using ih hf'

/-- When no row has the key, no element of the ledger matches it. -/
theorem findEnrollment_none {ledger : List Enrollment} {sid cid : Nat}
    (h : findEnrollment ledger sid cid = none) :
    ∀ e ∈ ledger, matchKey e sid cid = false := by
  intro e he
  have := List.find?_eq_none.mp h e he
  simpa using this

/-- When no row has the key, the pair's row count is zero. -/
theorem countEnrollments_eq_zero {ledger : List Enrollment} {sid cid : Nat}
    (h : findEnrollment ledger sid cid = none) :
    countEnrollments ledger sid cid = 0 := by
  unfold countEnrollments
  rw [List.length_eq_zero, List.filter_eq_nil_iff]
  intro e he
  simp [findEnrollment_none h e he]

-- ---------------- C1: grading sets and overwrites the five fields ----------------

/-- C1: an authorized grading action sets `grade` to the supplied grade,
`feedback` to the supplied feedback (empty string when omitted), `graded`
to `true`, `graded_by` to the acting identity and `graded_at` to the
current time; repeating the action with different values overwrites all
five fields, retaining no prior values. -/
theorem grade_sets_and_overwrites (u : User) (c : Course) (s : Submission)
    (g fb : Option String) (now : Nat)
    (h : canGrade u c = true) :
    grade_submission u c s g fb now =
      .ok { s with grade := g, feedback := fb.getD "", graded := true,
                   graded_by := some u.id, graded_at := some now } ∧
    ∀ (g₂ fb₂ : Option String) (now₂ : Nat),
      (grade_submission u c s g fb now).bind
          (fun r => grade_submission u c r g₂ fb₂ now₂) =
        .ok { s with grade := g₂, feedback := fb₂.getD "", graded := true,
                     graded_by := some u.id, graded_at := some now₂ } := by
  have h' : (u.is_superuser || u.is_staff || c.instructor_id == some u.id) = true := h
  constructor
  · simp [grade_submission, h']
  · intro g₂ fb₂ now₂
    simp [grade_submission, h', Except.bind]

/-- Closed instance of C1: the course instructor grades, then re-grades
with different values; the stored row carries only the second values. -/
theorem grade_sets_and_overwrites_witness :
    canGrade uInstructor course1 = true ∧
    (grade_submission uInstructor course1 sub1 (some "B") (some "redo") 60).bind
        (fun r => grade_submission uInstructor course1 r (some "A") none 70) =
      .ok { sub1 with grade := some "A", feedback := "", graded := true,
                      graded_by := some uInstructor.id, graded_at := some 70 } :=
  ⟨by decide,
   (grade_sets_and_overwrites uInstructor course1 sub1 (some "B") (some "redo") 60
     (by decide)).2 (some "A") none 70⟩

-- ---------------- C2: grading authorization gate ----------------

/-- C2: a grading attempt succeeds exactly when the acting identity is the
submission's course instructor (equality on the instructor id), staff, or a
superuser; any other identity gets `NotAuthorized` and the stored row keeps
all its grading fields unchanged. -/
theorem grade_authorization_iff (u : User) (c : Course) (s : Submission)
    (g fb : Option String) (now : Nat) :
    ((∃ r, grade_submission u c s g fb now = .ok r) ↔
      (u.is_superuser = true ∨ u.is_staff = true ∨ c.instructor_id = some u.id)) ∧
    (¬(u.is_superuser = true ∨ u.is_staff = true ∨ c.instructor_id = some u.id) →
      grade_submission u c s g fb now = .error .NotAuthorized ∧
      gradeStep u c s g fb now = s) := by
  by_cases h : (u.is_superuser || u.is_staff || c.instructor_id == some u.id) = true
  · have hp : u.is_superuser = true ∨ u.is_staff = true ∨ c.instructor_id = some u.id := by
      simp only [Bool.or_eq_true, beq_iff_eq, or_assoc] at h
      exact h
    constructor
    · simp [grade_submission, h, hp]
    · intro hc; exact absurd hp hc
  · have hp : ¬(u.is_superuser = true ∨ u.is_staff = true ∨ c.instructor_id = some u.id) := by
      simp only [Bool.or_eq_true, beq_iff_eq, or_assoc] at h
      exact h
    have hb : (u.is_superuser || u.is_staff || c.instructor_id == some u.id) = false := by
      simpa using h
    constructor
    · simp [grade_submission, hb, hp]
    · intro _; simp [grade_submission, gradeStep, hb]

/-- Closed instance of C2: an identity that is not staff, not superuser and
not the course's instructor is rejected and the row is untouched. -/
theorem grade_authorization_iff_witness :
    grade_submission uOther course1 sub1 (some "A") none 60 = .error .NotAuthorized ∧
    gradeStep uOther course1 sub1 (some "A") none 60 = sub1 :=
  (grade_authorization_iff uOther course1 sub1 (some "A") none 60).2 (by decide)

-- ---------------- C3: graded-notification trigger rule ----------------

/-- C3: the graded notification is triggered exactly on saves where
`graded = true` and the save is not the row's initial insert; every
successful grading save (an update of an existing row) triggers it — so an
edit of grade or feedback re-fires it — and the initial insert never does. -/
theorem notify_trigger_rule :
    (∀ (created : Bool) (s : Submission),
      notifyTriggered created s = true ↔ (s.graded = true ∧ created = false)) ∧
    (∀ (u : User) (c : Course) (s : Submission) (g fb : Option String) (now : Nat)
        (r : Submission),
      grade_submission u c s g fb now = .ok r → notifyTriggered false r = true) ∧
    (∀ s : Submission, notifyTriggered true s = false) := by
  refine ⟨?_, ?_, ?_⟩
  · intro created s
    cases created <;> cases hs : s.graded <;> simp [notifyTriggered, hs]
  · intro u c s g fb now r h
    unfold grade_submission at h
    split at h
    · exact absurd h (by simp)
    · injection h with h
      subst h
      rfl
  · intro s
    simp [notifyTriggered]

/-- Closed instance of C3: the row produced by a grading save triggers the
notification, and the same row re-saved (a re-grade) triggers it again,
while an insert of the same row does not. -/
theorem notify_trigger_rule_witness :
    notifyTriggered false
        (gradeStep uInstructor course1 sub1 (some "A") (some "Good") 60) = true ∧
    notifyTriggered true sub1 = false :=
  ⟨notify_trigger_rule.2.1 uInstructor course1 sub1 (some "A") (some "Good") 60
      (gradeStep uInstructor course1 sub1 (some "A") (some "Good") 60) (by rfl),
   notify_trigger_rule.2.2 sub1⟩

-- ---------------- C8: staff-without-superuser cannot toggle enrollment ----------------

/-- C8: an identity with `is_staff = true` and `is_superuser = false` has
every enroll-toggle attempt rejected with a permission error, and the
enrollment ledger is neither extended nor modified. -/
theorem staff_toggle_rejected (u : User) (profiles : List StudentProfile)
    (courses : List Course) (ledger : List Enrollment) (pk now : Nat)
    (hs : u.is_staff = true) (hns : u.is_superuser = false) :
    enroll_toggle u profiles courses ledger pk now = .error .NotAuthorized ∧
    enrollToggleStep u profiles courses ledger pk now = ledger := by
  constructor
  · simp [enroll_toggle, hs, hns]
  · simp [enrollToggleStep, enroll_toggle, hs, hns]

/-- Closed instance of C8: the instructor account's toggle attempt on
`course1` is rejected and the ledger (holding `enr1`) is unchanged. -/
theorem staff_toggle_rejected_witness :
    enroll_toggle uInstructor profiles1 courses1 [enr1] 10 60 =
      .error .NotAuthorized ∧
    enrollToggleStep uInstructor profiles1 courses1 [enr1] 10 60 = [enr1] :=
  staff_toggle_rejected uInstructor profiles1 courses1 [enr1] 10 60
    (by decide) (by decide)

-- ---------------- C5: first toggle creates a single active enrollment ----------------

/-- C5: a permitted identity with a student profile and no existing
enrollment for the course gets, from one enroll-toggle, exactly one
enrollment row for (profile, course), with `active = true` and
`enrolled_on` equal to the toggle time. -/
theorem toggle_creates_active_enrollment (u : User)
    (profiles : List StudentProfile) (courses : List Course)
    (ledger : List Enrollment) (pk now : Nat) (p : StudentProfile) (c : Course)
    (hperm : (u.is_staff && !u.is_superuser) = false)
    (hp : profileOf profiles u = some p)
    (hc : findCourse courses pk = some c)
    (hnone : findEnrollment ledger p.id c.id = none) :
    enroll_toggle u profiles courses ledger pk now =
      .ok (ledger ++ [newEnrollment p.id c.id now]) ∧
    countEnrollments (ledger ++ [newEnrollment p.id c.id now]) p.id c.id = 1 ∧
    (newEnrollment p.id c.id now).active = true ∧
    (newEnrollment p.id c.id now).enrolled_on = now := by
  refine ⟨?_, ?_, rfl, rfl⟩
  · simp [enroll_toggle, hperm, hp, hc, hnone]
  · unfold countEnrollments
    rw [List.filter_append]
    have h0 : ledger.filter (fun e => matchKey e p.id c.id) = [] := by
      rw [List.filter_eq_nil_iff]
      intro e he
      simp [findEnrollment_none hnone e he]
    rw [h0]
    simp [matchKey, newEnrollment]

/-- Closed instance of C5: with an empty ledger, `uStudent` toggling on
`course1` creates the single active row stamped with the toggle time. -/
theorem toggle_creates_active_enrollment_witness :
    enroll_toggle uStudent profiles1 courses1 [] 10 60 =
      .ok [newEnrollment profile1.id course1.id 60] ∧
    countEnrollments [newEnrollment profile1.id course1.id 60]
      profile1.id course1.id = 1 ∧
    (newEnrollment profile1.id course1.id 60).active = true ∧
    (newEnrollment profile1.id course1.id 60).enrolled_on = 60 := by
  have h := toggle_creates_active_enrollment uStudent profiles1 courses1 [] 10 60
    profile1 course1 (by decide) (by decide) (by decide) (by decide)
  simpa using h

-- ---------------- C4: toggling twice round-trips `active` ----------------

/-- C4: for a permitted identity with an existing enrollment, toggling twice
returns `active` to its original value; `enrolled_on` is refreshed exactly
on the toggle that sets `active = true`, while the toggle that sets it to
`false` leaves `enrolled_on` untouched; each single toggle flips `active`,
so the operation is a toggle, not idempotent. -/
theorem toggle_twice_roundtrip (u : User) (profiles : List StudentProfile)
    (courses : List Course) (ledger : List Enrollment) (pk now₁ now₂ : Nat)
    (p : StudentProfile) (c : Course) (e : Enrollment)
    (hperm : (u.is_staff && !u.is_superuser) = false)
    (hp : profileOf profiles u = some p)
    (hc : findCourse courses pk = some c)
    (he : findEnrollment ledger p.id c.id = some e) :
    ∃ L₁ e₁ L₂ e₂,
      enroll_toggle u profiles courses ledger pk now₁ = .ok L₁ ∧
      findEnrollment L₁ p.id c.id = some e₁ ∧
      e₁.active = !e.active ∧
      enroll_toggle u profiles courses L₁ pk now₂ = .ok L₂ ∧
      findEnrollment L₂ p.id c.id = some e₂ ∧
      e₂.active = e.active ∧
      (e.active = true → e₁.enrolled_on = e.enrolled_on ∧ e₂.enrolled_on = now₂) ∧
      (e.active = false → e₁.enrolled_on = now₁ ∧ e₂.enrolled_on = now₁) := by
  have hkey : matchKey e p.id c.id = true := findEnrollment_matches he
  cases hact : e.active with
  | true =>
    have hf₁ : findEnrollment (updateEnrollment ledger p.id c.id { e with active := false })
        p.id c.id = some { e with active := false } :=
      findEnrollment_update (by simpa [matchKey] using hkey) he
    refine ⟨updateEnrollment ledger p.id c.id { e with active := false },
      { e with active := false },
      updateEnrollment (updateEnrollment ledger p.id c.id { e with active := false })
        p.id c.id { e with active := true, enrolled_on := now₂ },
      { e with active := true, enrolled_on := now₂ },
      ?_, hf₁, ?_, ?_, ?_, ?_, ?_, ?_⟩
    · simp [enroll_toggle, hperm, hp, hc, he, hact]
    · simp [hact]
    · simp [enroll_toggle, hperm, hp, hc, hf₁]
    · exact findEnrollment_update (by simpa [matchKey] using hkey) hf₁
    · simp [hact]
    · intro _; exact ⟨rfl, rfl⟩
    · intro hfalse; simp [hact] at hfalse
  | false =>
    have hf₁ : findEnrollment
        (updateEnrollment ledger p.id c.id { e with active := true, enrolled_on := now₁ })
        p.id c.id = some { e with active := true, enrolled_on := now₁ } :=
      findEnrollment_update (by simpa [matchKey] using hkey) he
    refine ⟨updateEnrollment ledger p.id c.id { e with active := true, enrolled_on := now₁ },
      { e with active := true, enrolled_on := now₁ },
      updateEnrollment
        (updateEnrollment ledger p.id c.id { e with active := true, enrolled_on := now₁ })
        p.id c.id { e with active := false, enrolled_on := now₁ },
      { e with active := false, enrolled_on := now₁ },
      ?_, hf₁, ?_, ?_, ?_, ?_, ?_, ?_⟩
    · simp [enroll_toggle, hperm, hp, hc, he, hact]
    · simp [hact]
    · simp [enroll_toggle, hperm, hp, hc, hf₁]
    · exact findEnrollment_update (by simpa [matchKey] using hkey) hf₁
    · simp [hact]
    · intro htrue; simp [hact] at htrue
    · intro _; exact ⟨rfl, rfl⟩

/-- Closed instance of C4: `uStudent`, actively enrolled in `course1`
(row `enr1`), toggles twice; the first toggle drops without touching the
timestamp, the second re-enrolls and refreshes it. -/
theorem toggle_twice_roundtrip_witness :
    ∃ L₁ e₁ L₂ e₂,
      enroll_toggle uStudent profiles1 courses1 [enr1] 10 60 = .ok L₁ ∧
      findEnrollment L₁ profile1.id course1.id = some e₁ ∧
      e₁.active = !enr1.active ∧
      enroll_toggle uStudent profiles1 courses1 L₁ 10 70 = .ok L₂ ∧
      findEnrollment L₂ profile1.id course1.id = some e₂ ∧
      e₂.active = enr1.active ∧
      (enr1.active = true → e₁.enrolled_on = enr1.enrolled_on ∧ e₂.enrolled_on = 70) ∧
      (enr1.active = false → e₁.enrolled_on = 60 ∧ e₂.enrolled_on = 60) :=
  toggle_twice_roundtrip uStudent profiles1 courses1 [enr1] 10 60 70
    profile1 course1 enr1 (by decide) (by decide) (by decide) (by decide)

-- ---------------- C10: manual enrollment never touches an existing row ----------------

/-- C10: when the manual enroll-by-roll-number operation resolves a student
whose (student, course) enrollment row already exists, the ledger is
returned exactly as it was — the existing row keeps its `active` value
(a dropped row is not reactivated) and its `enrolled_on` — while the
operation still reports the student as enrolled. -/
theorem manual_enroll_existing_noop (profiles : List StudentProfile)
    (roll : String) (course : Course) (ledger : List Enrollment) (now : Nat)
    (p : StudentProfile) (e : Enrollment)
    (hp : profiles.find? (fun q => q.roll_number == roll) = some p)
    (he : findEnrollment ledger p.id course.id = some e) :
    enroll_manual profiles roll course ledger now = .enrolled ledger ∧
    findEnrollment (enrollManualStep profiles roll course ledger now)
      p.id course.id = some e := by
  have h1 : enroll_manual profiles roll course ledger now = .enrolled ledger := by
    simp [enroll_manual, hp, he]
  refine ⟨h1, ?_⟩
  simp [enrollManualStep, h1, he]

/-- Closed instance of C10: `profile1` holds a dropped enrollment `enr2` in
`course2`; manual enrollment by roll number reports success but leaves the
row inactive with its old timestamp. -/
theorem manual_enroll_existing_noop_witness :
    enroll_manual profiles1 "R001" course2 [enr2] 60 = .enrolled [enr2] ∧
    findEnrollment (enrollManualStep profiles1 "R001" course2 [enr2] 60)
      profile1.id course2.id = some enr2 :=
  manual_enroll_existing_noop profiles1 "R001" course2 [enr2] 60 profile1 enr2
    (by decide) (by decide)

-- ---------------- C9: at most one row per (student, course) pair ----------------

/-- Appending a freshly created row for a key that has no row yet preserves
pairwise key distinctness. -/
theorem uniquePairs_append_new {ledger : List Enrollment} {sid cid now : Nat}
    (h : uniquePairs ledger) (hnone : findEnrollment ledger sid cid = none) :
    uniquePairs (ledger ++ [newEnrollment sid cid now]) := by
  unfold uniquePairs at *
  rw [List.pairwise_append]
  refine ⟨h, by simp, ?_⟩
  intro a ha b hb
  have hb' : b = newEnrollment sid cid now := by simpa using hb
  subst hb'
  have hm : matchKey a sid cid = false := findEnrollment_none hnone a ha
  have : ¬(a.student_id = sid ∧ a.course_id = cid) := by
    intro ⟨h1, h2⟩
    simp [matchKey, h1, h2] at hm
  rcases Decidable.not_and_iff_or_not.mp this with h1 | h2
  · exact Or.inl (by simpa [newEnrollment] using h1)
  · exact Or.inr (by simpa [newEnrollment] using h2)

/-- Replacing the rows of a key by a row of the same key preserves pairwise
key distinctness. -/
theorem uniquePairs_update {ledger : List Enrollment} {sid cid : Nat}
    {e' : Enrollment} (hk : matchKey e' sid cid = true)
    (h : uniquePairs ledger) :
    uniquePairs (updateEnrollment ledger sid cid e') := by
  have hpair : ∀ x : Enrollment,
      (if matchKey x sid cid then e' else x).student_id = x.student_id ∧
      (if matchKey x sid cid then e' else x).course_id = x.course_id := by
    intro x
    by_cases hx : matchKey x sid cid = true
    · have hx' : x.student_id = sid ∧ x.course_id = cid := by
        simpa [matchKey] using hx
      have hk' : e'.student_id = sid ∧ e'.course_id = cid := by
        simpa [matchKey] using hk
      simp [hx, hx'.1, hx'.2, hk'.1, hk'.2]
    · simp [hx]
  unfold uniquePairs at *
  unfold updateEnrollment
  rw [List.pairwise_map]
  refine h.imp ?_
  intro a b hab
  rcases hab with h1 | h2
  · exact Or.inl (by rw [(hpair a).1, (hpair b).1]; exact h1)
  · exact Or.inr (by rw [(hpair a).2, (hpair b).2]; exact h2)

/-- C9: a ledger with at most one enrollment row per (student, course) pair
keeps that invariant across any enroll-toggle attempt and any manual
enrollment attempt, whatever the caller, course and ledger contents. -/
theorem enrollment_uniqueness_preserved (u : User)
    (profiles : List StudentProfile) (courses : List Course)
    (ledger : List Enrollment) (pk now : Nat) (roll : String) (course : Course)
    (h : uniquePairs ledger) :
    uniquePairs (enrollToggleStep u profiles courses ledger pk now) ∧
    uniquePairs (enrollManualStep profiles roll course ledger now) := by
  constructor
  · unfold enrollToggleStep enroll_toggle
    by_cases hstaff : (u.is_staff && !u.is_superuser) = true
    · simp [hstaff, h]
    · simp only [hstaff, Bool.false_eq_true, if_neg, if_false]
      cases hp : profileOf profiles u with
      | none => simpa using h
      | some p =>
        cases hc : findCourse courses pk with
        | none => simpa using h
        | some c =>
          cases he : findEnrollment ledger p.id c.id with
          | none =>
            simpa [he] using uniquePairs_append_new h he
          | some e =>
            have hkey := findEnrollment_matches he
            by_cases hact : e.active = true
            · have hkk : matchKey { e with active := false } p.id c.id = true := by
                simpa [matchKey] using hkey
              simpa [he, hact] using uniquePairs_update hkk h
            · have hact' : e.active = false := by simpa using hact
              have hkk : matchKey { e with active := true, enrolled_on := now }
                  p.id c.id = true := by
                simpa [matchKey] using hkey
              simpa [he, hact'] using uniquePairs_update hkk h
  · unfold enrollManualStep enroll_manual
    cases hp : profiles.find? (fun q => q.roll_number == roll) with
    | none => simpa using h
    | some p =>
      cases he : findEnrollment ledger p.id course.id with
      | none => simpa [he] using uniquePairs_append_new h he
      | some e => simpa [he] using h

/-- Closed instance of C9: the two-row ledger `[enr1, enr2]` satisfies the
invariant and still does after a toggle by `uStudent` on `course1` and a
manual enrollment of roll `R001` into `course2`. -/
theorem enrollment_uniqueness_preserved_witness :
    uniquePairs [enr1, enr2] ∧
    uniquePairs (enrollToggleStep uStudent profiles1 courses1 [enr1, enr2] 10 60) ∧
    uniquePairs (enrollManualStep profiles1 "R001" course2 [enr1, enr2] 60) :=
  ⟨by decide,
   enrollment_uniqueness_preserved uStudent profiles1 courses1 [enr1, enr2]
     10 60 "R001" course2 (by decide)⟩

-- ---------------- C6: the eligible-course set ----------------

/-- A course id is among the active-enrollment course ids exactly when the
ledger holds an active enrollment of that profile in that course. -/
theorem mem_activeCourseIds (ledger : List Enrollment) (sid cid : Nat) :
    cid ∈ activeCourseIds ledger sid ↔
      ∃ e ∈ ledger, e.student_id = sid ∧ e.active = true ∧ e.course_id = cid := by
  unfold activeCourseIds
  simp only [List.mem_map, List.mem_filter, Bool.and_eq_true, beq_iff_eq]
  constructor
  · rintro ⟨e, ⟨heL, h1, h2⟩, h3⟩
    exact ⟨e, heL, h1, h2, h3⟩
  · rintro ⟨e, heL, h1, h2, h3⟩
    exact ⟨e, ⟨heL, h1, h2⟩, h3⟩

/-- Boolean form of the previous lemma, matching the shape of the
spec-modelled filter predicate. -/
theorem contains_activeCourseIds (ledger : List Enrollment) (sid cid : Nat) :
    (activeCourseIds ledger sid).contains cid
      = ledger.any (fun e => e.student_id == sid && e.active && e.course_id == cid) := by
  rw [Bool.eq_iff_iff, List.elem_iff, List.any_eq_true, mem_activeCourseIds]
  simp [and_assoc]

/-- C6: the course set the upload form offers equals the spec's
eligible-course set — for staff, the courses they instruct; otherwise the
courses in which the caller's profile holds an active enrollment; empty for
a non-staff caller with no profile. -/
theorem eligible_courses_eq_spec (u : User) (courses : List Course)
    (profiles : List StudentProfile) (ledger : List Enrollment) :
    eligible_courses u courses profiles ledger =
      eligibleSpec u courses profiles ledger := by
  unfold eligible_courses eligibleSpec
  by_cases hs : u.is_staff = true
  · simp [hs]
  · have hs' : u.is_staff = false := by simpa using hs
    cases hp : profileOf profiles u with
    | none => simp [hs', hp]
    | some p =>
      simp only [hs', Bool.false_eq_true, if_false, hp]
      by_cases hemp : (activeCourseIds ledger p.id).isEmpty = true
      · rw [if_pos hemp]
        have hnil : activeCourseIds ledger p.id = [] := by
          simpa [List.isEmpty_iff] using hemp
        symm
        rw [List.filter_eq_nil_iff]
        intro c _
        rw [← contains_activeCourseIds, hnil]
        simp
      · rw [if_neg hemp]
        apply List.filter_congr
        intro c _
        rw [contains_activeCourseIds]

-- ---------------- C7: server-side upload validation ----------------

/-- C7: on upload, a caller without a student profile always fails with the
profile-missing outcome; a caller who is neither staff nor superuser is
rejected whenever the selected course is not among their active
enrollments (a server-side check on the enrollment ledger) and accepted
otherwise; a staff or superuser caller bypasses the course-membership
restriction entirely. -/
theorem upload_validation (u : User) (profiles : List StudentProfile)
    (ledger : List Enrollment) (selected : Option Course)
    (file : String) (now newId : Nat) :
    (profileOf profiles u = none →
      form_valid u profiles ledger selected file now newId = .profileMissing) ∧
    (∀ p c, profileOf profiles u = some p → selected = some c →
      ((u.is_staff = false ∧ u.is_superuser = false) →
        ((¬ ∃ e ∈ ledger, e.student_id = p.id ∧ e.active = true ∧ e.course_id = c.id) →
          form_valid u profiles ledger selected file now newId = .notEligible) ∧
        ((∃ e ∈ ledger, e.student_id = p.id ∧ e.active = true ∧ e.course_id = c.id) →
          form_valid u profiles ledger selected file now newId =
            .success { id := newId, student_id := p.id, course_id := c.id,
                       file := file, submitted_at := now, graded := false,
                       grade := none, feedback := "", graded_by := none,
                       graded_at := none })) ∧
      ((u.is_staff = true ∨ u.is_superuser = true) →
        form_valid u profiles ledger selected file now newId =
          .success { id := newId, student_id := p.id, course_id := c.id,
                     file := file, submitted_at := now, graded := false,
                     grade := none, feedback := "", graded_by := none,
                     graded_at := none })) := by
  constructor
  · intro hp
    simp [form_valid, hp]
  · intro p c hp hsel
    constructor
    · intro ⟨hstaff, hsuper⟩
      constructor
      · intro hno
        have hnotin : c.id ∉ activeCourseIds ledger p.id := fun hin =>
          hno ((mem_activeCourseIds ledger p.id c.id).mp hin)
        simp [form_valid, hp, hsel, hstaff, hsuper, hnotin]
      · intro hyes
        have hin : c.id ∈ activeCourseIds ledger p.id :=
          (mem_activeCourseIds ledger p.id c.id).mpr hyes
        simp [form_valid, hp, hsel, hstaff, hsuper, hin]
    · intro hrole
      rcases hrole with h | h
      · simp [form_valid, hp, hsel, h]
      · simp [form_valid, hp, hsel, h]

/-- Closed instance of C7: `uOther` has no profile and fails with the
profile-missing outcome; `uStudent`, enrolled only in `course1` (active) and
`course2` (dropped), is rejected on `course2`; the superuser `uSuper`, who
also owns `profile1` in this table, bypasses the restriction on `course2`. -/
theorem upload_validation_witness :
    form_valid uOther profiles1 [enr1, enr2] (some course1) "hw.pdf" 50 500 =
      .profileMissing ∧
    form_valid uStudent profiles1 [enr1, enr2] (some course2) "hw.pdf" 50 500 =
      .notEligible ∧
    form_valid uStudent profiles1 [enr1, enr2] (some course1) "hw.pdf" 50 500 =
      .success { id := 500, student_id := profile1.id, course_id := course1.id,
                 file := "hw.pdf", submitted_at := 50, graded := false,
                 grade := none, feedback := "", graded_by := none,
                 graded_at := none } :=
  ⟨(upload_validation uOther profiles1 [enr1, enr2] (some course1) "hw.pdf" 50 500).1
      (by decide),
   ((upload_validation uStudent profiles1 [enr1, enr2] (some course2) "hw.pdf" 50 500).2
      profile1 course2 (by decide) rfl).1 ⟨by decide, by decide⟩ |>.1 (by decide),
   ((upload_validation uStudent profiles1 [enr1, enr2] (some course1) "hw.pdf" 50 500).2
      profile1 course1 (by decide) rfl).1 ⟨by decide, by decide⟩ |>.2 (by decide)⟩

end StudentCourses
